import Mathlib

/-!
Shallow embedding of the scrape-normalize-upload pipeline of `app/main.py`:
the HTML forecast extractor inside `fetch_day_data`, the token manager
`refresh_zoho_token`, the uploader `upload_to_zoho` with its single
401 refresh-and-retry, and the orchestration loop `daily_job`.

HTTP responses, parsed markup and the multipart file stream are modelled as
explicit data. `requests.Response.raise_for_status` raises exactly on
status codes 400..599, and that is what the embedding tests wherever the
source calls it. `pandas.DataFrame(list_of_dicts).to_csv(index=False)` is
modelled by first-appearance column inference over ordered key/value rows.
-/

/-- Python `str.replace(t, "")` for a single character `t`: remove every
occurrence, scanning left to right. Used for the degree and percent glyphs. -/
def stripCharAux (t : Char) : List Char → List Char
  | [] => []
  | c :: rest => if c = t then stripCharAux t rest else c :: stripCharAux t rest

def degreeGlyph : Char := '°'

def percentGlyph : Char := '%'

/-- The degree strip in `get_temp`, a `replace` of the degree glyph by the
empty string. -/
def stripDegree (s : String) : String := ⟨stripCharAux degreeGlyph s.data⟩

/-- The percent strip in `get_precip_chance`, a `replace` of the percent
glyph by the empty string. -/
def stripPercent (s : String) : String := ⟨stripCharAux percentGlyph s.data⟩

/-- Python `str.replace` of the three-character pattern space-m-m by the
empty string, as in `get_precip_amount`: scan left to right; on a match
consume the three matched characters and continue after them
(non-overlapping); otherwise emit one character and move on. -/
def stripMmAux : List Char → List Char
  | [] => []
  | [c] => [c]
  | [c1, c2] => [c1, c2]
  | c1 :: c2 :: c3 :: rest =>
    if c1 = ' ' ∧ c2 = 'm' ∧ c3 = 'm' then stripMmAux rest
    else c1 :: stripMmAux (c2 :: c3 :: rest)

/-- The millimetre-suffix strip in `get_precip_amount`. -/
def stripMm (s : String) : String := ⟨stripMmAux s.data⟩

def mmLit : String := " mm"

/-- A `.panel-item` block: `label` is its first direct text child
(`item.find(text=True, recursive=False)`, `none` when absent), `value` the
stripped text of its `.value` descendant (`none` when absent). -/
structure Panel where
  label : Option String
  value : Option String
deriving DecidableEq

/-- A `div.half-day-card` block: `heading` is the text of its first `h2`
(`none` when absent), `temperature` the stripped text of its
`.temperature` descendant, `panels` its `.panel-item` blocks in document
order. -/
structure Card where
  heading : Option String
  temperature : Option String
  panels : List Panel
deriving DecidableEq

/-- A parsed forecast page: `dateTag` is the stripped text of the
`.subnav-pagination > div` node (`none` when that node is absent), `cards`
the `half-day-card` blocks in document order. -/
structure Markup where
  dateTag : Option String
  cards : List Card
deriving DecidableEq

/-- The five-field record built at the end of `fetch_day_data`; Lean field
names stand for the dict keys Date, HighTemp, LowTemp, PrecipChance_% and
PrecipAmount_mm in that (insertion) order. -/
structure ForecastRecord where
  Date : String
  HighTemp : String
  LowTemp : String
  precipChance : String
  precipAmount : String
deriving DecidableEq

/-- Substring containment on character lists, Python's `pat in s`. -/
def containsSub (pat : List Char) : List Char → Bool
  | [] => pat.isEmpty
  | c :: rest => pat.isPrefixOf (c :: rest) || containsSub pat rest

def dayKey : String := "Day"

def nightKey : String := "Night"

def chanceKey : String := "Probability of Precipitation"

def amountKey : String := "Precipitation"

/-- The card selectors of `fetch_day_data`: the card has an `h2` and the
key occurs in that heading's text. -/
def headingContains (key : String) (c : Card) : Bool :=
  match c.heading with
  | some h => containsSub key.data h.data
  | none => false

/-- `get_temp`: empty for a missing card or a missing `.temperature` node,
otherwise the temperature text with the degree glyph removed. -/
def get_temp : Option Card → String
  | none => ""
  | some c =>
    match c.temperature with
    | some t => stripDegree t
    | none => ""

/-- Python `str.strip()`: remove leading and trailing whitespace. -/
def pyStrip (s : String) : String :=
  ⟨((s.data.dropWhile Char.isWhitespace).reverse.dropWhile Char.isWhitespace).reverse⟩

/-- The guard of the precipitation scans: the direct label text exists, is
truthy (non-empty) and strips to the key. -/
def labelIs (key : String) (item : Panel) : Bool :=
  match item.label with
  | some l => (l != "") && (pyStrip l == key)
  | none => false

/-- The `get_precip_chance` loop over `.panel-item`s: the first item whose
direct label text strips to the probability key wins and its `.value` text
(percent glyph removed, empty when the item has no `.value`) is returned;
no match yields the empty string. -/
def precip_chance_scan : List Panel → String
  | [] => ""
  | item :: rest =>
    if labelIs chanceKey item then
      match item.value with
      | some v => stripPercent v
      | none => ""
    else precip_chance_scan rest

def get_precip_chance : Option Card → String
  | none => ""
  | some c => precip_chance_scan c.panels

/-- The `get_precip_amount` loop: first item whose direct label text strips
to the precipitation key; its value with the space-m-m pattern removed. -/
def precip_amount_scan : List Panel → String
  | [] => ""
  | item :: rest =>
    if labelIs amountKey item then
      match item.value with
      | some v => stripMm v
      | none => ""
    else precip_amount_scan rest

def get_precip_amount : Option Card → String
  | none => ""
  | some c => precip_amount_scan c.panels

/-- Lines 63..112 of `fetch_day_data`: the pure extraction from parsed
markup to the five-field record. The day card is the first card whose
heading contains the day key, the night card the first whose heading
contains the night key; the precipitation fields both come from the day
card. -/
def extract (m : Markup) : ForecastRecord :=
  let dayCard := m.cards.find? (headingContains dayKey)
  let nightCard := m.cards.find? (headingContains nightKey)
  { Date := match m.dateTag with | some d => d | none => ""
    HighTemp := get_temp dayCard
    LowTemp := get_temp nightCard
    precipChance := get_precip_chance dayCard
    precipAmount := get_precip_amount dayCard }

def fieldDate : String := "Date"

def fieldHigh : String := "HighTemp"

def fieldLow : String := "LowTemp"

def fieldChance : String := "PrecipChance_%"

def fieldAmount : String := "PrecipAmount_mm"

def emptyCell : String := ""

/-- The dict literal returned by `fetch_day_data`, as an ordered key/value
list (Python dicts preserve insertion order). -/
def recordDict (r : ForecastRecord) : List (String × String) :=
  [(fieldDate, r.Date), (fieldHigh, r.HighTemp), (fieldLow, r.LowTemp),
   (fieldChance, r.precipChance), (fieldAmount, r.precipAmount)]

/-- pandas column inference step: append the keys of one row that have not
been seen yet, in row order. -/
def addKeys (seen : List String) (row : List (String × String)) : List String :=
  row.foldl (fun acc kv => if acc.contains kv.1 then acc else acc ++ [kv.1]) seen

/-- pandas column inference for a DataFrame built from a list of dicts:
keys in order of first appearance across the rows; no rows, no columns. -/
def inferColumns (rows : List (List (String × String))) : List String :=
  rows.foldl addKeys []

/-- The tabular export `pd.DataFrame(records).to_csv(index=False)` as a
list of rows of cells: a header row holding the inferred column names
(empty when the record list is empty), then one row per record with each
cell looked up by column name (a missing key renders as an empty cell). -/
def csvOf (records : List ForecastRecord) : List (List String) :=
  let rows := records.map recordDict
  let cols := inferColumns rows
  cols :: rows.map (fun row => cols.map (fun c => (row.lookup c).getD emptyCell))

/-- Statuses on which `requests.Response.raise_for_status` raises: exactly
the client-error and server-error ranges 400..599. -/
def raisesForStatus (s : Nat) : Bool := decide (400 ≤ s ∧ s < 600)

/-- Modelled from the spec: the success range the spec's sentences call
2xx. The code itself never tests this; it tests `raisesForStatus`. -/
def spec_is2xx (s : Nat) : Bool := decide (200 ≤ s ∧ s < 300)

/-- Observed response of the OAuth token endpoint: HTTP status and the
access_token field of its JSON body (`none` when the body has no usable
such field). -/
structure TokenResp where
  status : Nat
  accessToken : Option String
deriving DecidableEq

inductive RefreshErr where
  | httpStatus (code : Nat)
  | missingToken
deriving DecidableEq

/-- `refresh_zoho_token`: `resp.raise_for_status()`, then read the
access_token field and store it in the process-wide token, threaded here
explicitly. On either failure the exception leaves the stored token as it
was, because the assignment happens last. -/
def refresh_zoho_token (resp : TokenResp) (tok : Option String) :
    Except RefreshErr Unit × Option String :=
  if raisesForStatus resp.status then
    (Except.error (RefreshErr.httpStatus resp.status), tok)
  else
    match resp.accessToken with
    | none => (Except.error RefreshErr.missingToken, tok)
    | some t => (Except.ok (), some t)

def authScheme : String := "Zoho-oauthtoken "

def noneText : String := "None"

/-- The authorization header value; Python string interpolation renders an
absent token as the word None. -/
def authHeader (tok : Option String) : String :=
  authScheme ++ match tok with | some t => t | none => noneText

/-- The opened forecast.csv stream handed to the multipart body: `content`
is the full table, `pos` how much has already been consumed by reads. -/
structure FileStream where
  content : List (List String)
  pos : Nat
deriving DecidableEq

/-- Building a multipart body reads the file part from the current
position and leaves the stream at end of file. -/
def readStream (fs : FileStream) : List (List String) × FileStream :=
  (fs.content.drop fs.pos, { fs with pos := fs.content.length })

inductive UpAction where
  | post (auth : String) (fileData : List (List String))
  | refreshTok
deriving DecidableEq

/-- Environment of one `upload_to_zoho` call: status of the first POST,
the token-endpoint response observed should a refresh happen, and the
status of the retry POST should it happen. -/
structure UploadEnv where
  status1 : Nat
  tokenResp : TokenResp
  status2 : Nat
deriving DecidableEq

inductive UploadErr where
  | refreshFailed (e : RefreshErr)
  | httpStatus (code : Nat)
deriving DecidableEq

structure UploadResult where
  trace : List UpAction
  outcome : Except UploadErr Unit
  token : Option String

def isPost : UpAction → Bool
  | UpAction.post _ _ => true
  | UpAction.refreshTok => false

def isRefreshCall : UpAction → Bool
  | UpAction.post _ _ => false
  | UpAction.refreshTok => true

/-- `upload_to_zoho(records)`: serialize the records, open the csv file,
POST it with the current token's header; on a response status of exactly
401 refresh the token, rebuild the header and POST once more (the files
dict, and hence the already-consumed stream, is reused as is); finally
`resp.raise_for_status()` on whichever response is current. -/
def upload_to_zoho (env : UploadEnv) (tok0 : Option String)
    (records : List ForecastRecord) : UploadResult :=
  let csv := csvOf records
  let fs0 : FileStream := { content := csv, pos := 0 }
  let r1 := readStream fs0
  let post1 := UpAction.post (authHeader tok0) r1.1
  if env.status1 = 401 then
    match refresh_zoho_token env.tokenResp tok0 with
    | (Except.error e, tok1) =>
      { trace := [post1, UpAction.refreshTok],
        outcome := Except.error (UploadErr.refreshFailed e), token := tok1 }
    | (Except.ok _, tok1) =>
      let r2 := readStream r1.2
      let post2 := UpAction.post (authHeader tok1) r2.1
      { trace := [post1, UpAction.refreshTok, post2],
        outcome := if raisesForStatus env.status2 then
            Except.error (UploadErr.httpStatus env.status2)
          else Except.ok (),
        token := tok1 }
  else
    { trace := [post1],
      outcome := if raisesForStatus env.status1 then
          Except.error (UploadErr.httpStatus env.status1)
        else Except.ok (),
      token := tok0 }

/-- Observed response of the per-day forecast GET. -/
structure FetchResp where
  status : Nat
  markup : Markup
deriving DecidableEq

/-- `fetch_day_data` past the GET itself: `resp.raise_for_status()`, then
parse and extract. -/
def fetch_day_data (resp : FetchResp) : Except Unit ForecastRecord :=
  if raisesForStatus resp.status then Except.error ()
  else Except.ok (extract resp.markup)

/-- One loop iteration's fetch; `none` stands for a network-level
exception out of the GET itself. -/
def fetchDayOutcome (fenv : Nat → Option FetchResp) (d : Nat) :
    Except Unit ForecastRecord :=
  match fenv d with
  | none => Except.error ()
  | some resp => fetch_day_data resp

def DAYS_TO_FETCH : Nat := 30

inductive JobEvent where
  | fetchAttempt (day : Nat)
  | uploadCall (records : List ForecastRecord)
deriving DecidableEq

/-- The day loop of `daily_job`: a failing day is swallowed by the bare
except and skipped; a fetched record is appended only when its Date field
is truthy (non-empty). -/
def jobLoop (fenv : Nat → Option FetchResp) :
    List Nat → List ForecastRecord → List JobEvent × List ForecastRecord
  | [], acc => ([], acc)
  | d :: ds, acc =>
    let acc' := match fetchDayOutcome fenv d with
      | Except.ok rec => if rec.Date ≠ "" then acc ++ [rec] else acc
      | Except.error _ => acc
    let rest := jobLoop fenv ds acc'
    (JobEvent.fetchAttempt d :: rest.1, rest.2)

/-- `daily_job`: run the loop over days 1..DAYS_TO_FETCH, then call the
uploader exactly once with the accumulator. -/
def daily_job (fenv : Nat → Option FetchResp) : List JobEvent :=
  let run := jobLoop fenv (List.range' 1 DAYS_TO_FETCH) []
  run.1 ++ [JobEvent.uploadCall run.2]

/-- Per-day contribution of the loop to the accumulator. -/
def pickRec (fenv : Nat → Option FetchResp) (d : Nat) : Option ForecastRecord :=
  match fetchDayOutcome fenv d with
  | Except.ok rec => if rec.Date ≠ "" then some rec else none
  | Except.error _ => none

def isFetchEvent : JobEvent → Bool
  | JobEvent.fetchAttempt _ => true
  | JobEvent.uploadCall _ => false

def isUploadEvent : JobEvent → Bool
  | JobEvent.fetchAttempt _ => false
  | JobEvent.uploadCall _ => true

/-- Modelled from the spec for refinement claim C5: the header row the
spec prescribes, the five field names in their fixed order. -/
def forecastFields : List String :=
  [fieldDate, fieldHigh, fieldLow, fieldChance, fieldAmount]

/-- Modelled from the spec for refinement claim C5: one row per record,
cells in the fixed field order. -/
def recordCells (r : ForecastRecord) : List String :=
  [r.Date, r.HighTemp, r.LowTemp, r.precipChance, r.precipAmount]

def degSample : String := "31°"

def amtSample : String := "3"

def mmExample : String := " m mmm"

/-- Concrete upload environment: first POST 401, refresh succeeds, retry
POST answered with a redirect-range status 300. -/
def envC1 : UploadEnv :=
  { status1 := 401, tokenResp := { status := 200, accessToken := some ("t2") }, status2 := 300 }

/-- Concrete upload environment: first POST 401, refresh succeeds, retry
POST answered with a second 401. -/
def envC1W : UploadEnv :=
  { status1 := 401, tokenResp := { status := 200, accessToken := some ("t2") }, status2 := 401 }

/-- Concrete upload environment: first POST 401, refresh succeeds, retry
POST accepted. -/
def envC2W : UploadEnv :=
  { status1 := 401, tokenResp := { status := 200, accessToken := some ("t2") }, status2 := 200 }

/-- Concrete upload environment: first POST answered with a redirect-range
status 300. -/
def envC9 : UploadEnv :=
  { status1 := 300, tokenResp := { status := 200, accessToken := some ("tX") }, status2 := 200 }

/-- Concrete upload environment: first POST answered with 500. -/
def envC9W : UploadEnv :=
  { status1 := 500, tokenResp := { status := 200, accessToken := none }, status2 := 200 }

/-- Concrete token-endpoint response: redirect-range status with a body
that does carry an access_token field. -/
def respC10 : TokenResp := { status := 300, accessToken := some ("newTok") }

/-- Concrete token-endpoint response: a 401 from the OAuth endpoint. -/
def respC10W : TokenResp := { status := 401, accessToken := none }

/-- A fetch environment in which every day fails at the network level. -/
def fenvNone : Nat → Option FetchResp := fun _ => none

/-- A fully populated sample record. -/
def recW : ForecastRecord :=
  { Date := "Mon, Oct 12", HighTemp := "31", LowTemp := "20",
    precipChance := "40", precipAmount := "3" }

/-- A card whose heading mentions only the night key. -/
def nightCardW : Card :=
  { heading := some ("Night time"), temperature := some ("10°"), panels := [] }

/-- Markup with a date label and a single night card, no day card. -/
def markupW : Markup := { dateTag := some ("Oct 12"), cards := [nightCardW] }

/-- Markup whose pagination label node is absent. -/
def markupND : Markup := { dateTag := none, cards := [] }

def panelW1 : Panel := { label := some ("Wind"), value := some ("5 km/h") }

def panelW2 : Panel :=
  { label := some ("Probability of Precipitation"), value := some ("40%") }

def panelW3 : Panel := { label := some ("Precipitation"), value := some ("3 mm") }

/-- A day card with a decoy panel before the two precipitation panels. -/
def cardW : Card :=
  { heading := some ("Day"), temperature := some ("31°"),
    panels := [panelW1, panelW2, panelW3] }

theorem stripCharAux_idem (t : Char) (l : List Char) :
    stripCharAux t (stripCharAux t l) = stripCharAux t l := by
  induction l with
  | nil => rfl
  | cons c rest ih =>
    by_cases h : c = t
    · simpa [stripCharAux, h] using ih
    · simp [stripCharAux, h, ih]

theorem stripCharAux_not_mem (t : Char) (l : List Char) : t ∉ stripCharAux t l := by
  induction l with
  | nil => simp [stripCharAux]
  | cons c rest ih =>
    by_cases h : c = t
    · simpa [stripCharAux, h] using ih
    · simp [stripCharAux, h, ih, Ne.symm h]

theorem stripMmAux_append_pat (l : List Char) :
    stripMmAux (l ++ [' ', 'm', 'm']) = stripMmAux l := by
  induction l using stripMmAux.induct with
  | case1 => rfl
  | case2 c => simp [stripMmAux]
  | case3 c1 c2 => simp [stripMmAux]
  | case4 c1 c2 c3 rest h ih => simp [stripMmAux, h, ih]
  | case5 c1 c2 c3 rest h ih => simpa [stripMmAux, h] using ih

theorem find?_first {α : Type} (p : α → Bool) (pre : List α) (x : α) (post : List α)
    (hpre : ∀ y ∈ pre, p y = false) (hx : p x = true) :
    (pre ++ x :: post).find? p = some x := by
  induction pre with
  | nil => simp [List.find?, hx]
  | cons a as ih =>
    have ha : p a = false := hpre a (List.mem_cons_self a as)
    simp only [List.cons_append, List.find?, ha]
    exact ih fun y hy => hpre y (List.mem_cons_of_mem a hy)

theorem stripMm_append_mm (s : String) : stripMm (s ++ mmLit) = stripMm s := by
  have h : (s ++ mmLit).data = s.data ++ [' ', 'm', 'm'] := by
    rw [String.data_append]
    rfl
  unfold stripMm
  rw [h, stripMmAux_append_pat]

theorem chance_scan_none (ps : List Panel)
    (h : ∀ p ∈ ps, labelIs chanceKey p = false) : precip_chance_scan ps = "" := by
  induction ps with
  | nil => rfl
  | cons item rest ih =>
    have hi := h item (List.mem_cons_self item rest)
    simp only [precip_chance_scan, hi, Bool.false_eq_true, if_false]
    exact ih fun p hp => h p (List.mem_cons_of_mem item hp)

theorem chance_scan_first (pre : List Panel) (item : Panel) (post : List Panel)
    (hpre : ∀ q ∈ pre, labelIs chanceKey q = false) (hit : labelIs chanceKey item = true) :
    precip_chance_scan (pre ++ item :: post) =
      match item.value with | some v => stripPercent v | none => "" := by
  induction pre with
  | nil => simp [precip_chance_scan, hit]
  | cons a as ih =>
    have ha := hpre a (List.mem_cons_self a as)
    simp only [List.cons_append, precip_chance_scan, ha, Bool.false_eq_true, if_false]
    exact ih fun q hq => hpre q (List.mem_cons_of_mem a hq)

theorem amount_scan_none (ps : List Panel)
    (h : ∀ p ∈ ps, labelIs amountKey p = false) : precip_amount_scan ps = "" := by
  induction ps with
  | nil => rfl
  | cons item rest ih =>
    have hi := h item (List.mem_cons_self item rest)
    simp only [precip_amount_scan, hi, Bool.false_eq_true, if_false]
    exact ih fun p hp => h p (List.mem_cons_of_mem item hp)

theorem amount_scan_first (pre : List Panel) (item : Panel) (post : List Panel)
    (hpre : ∀ q ∈ pre, labelIs amountKey q = false) (hit : labelIs amountKey item = true) :
    precip_amount_scan (pre ++ item :: post) =
      match item.value with | some v => stripMm v | none => "" := by
  induction pre with
  | nil => simp [precip_amount_scan, hit]
  | cons a as ih =>
    have ha := hpre a (List.mem_cons_self a as)
    simp only [List.cons_append, precip_amount_scan, ha, Bool.false_eq_true, if_false]
    exact ih fun q hq => hpre q (List.mem_cons_of_mem a hq)

theorem jobLoop_spec (fenv : Nat → Option FetchResp) (ds : List Nat)
    (acc : List ForecastRecord) :
    jobLoop fenv ds acc =
      (ds.map JobEvent.fetchAttempt, acc ++ ds.filterMap (pickRec fenv)) := by
  induction ds generalizing acc with
  | nil => simp [jobLoop]
  | cons d rest ih =>
    simp only [jobLoop, ih, List.map_cons, List.filterMap_cons, pickRec]
    cases hfd : fetchDayOutcome fenv d with
    | ok rec =>
      by_cases hd : rec.Date ≠ ""
      · simp [hfd, hd]
      · simp [hfd, hd]
    | error e => simp [hfd]

theorem daily_job_spec (fenv : Nat → Option FetchResp) :
    daily_job fenv =
      (List.range' 1 DAYS_TO_FETCH).map JobEvent.fetchAttempt ++
        [JobEvent.uploadCall ((List.range' 1 DAYS_TO_FETCH).filterMap (pickRec fenv))] := by
  simp [daily_job, jobLoop_spec]

theorem acc_mem_date_ne (fenv : Nat → Option FetchResp) (acc : List ForecastRecord)
    (hacc : JobEvent.uploadCall acc ∈ daily_job fenv) (r : ForecastRecord)
    (hr : r ∈ acc) : r.Date ≠ "" := by
  rw [daily_job_spec] at hacc
  rcases List.mem_append.mp hacc with h | h
  · rcases List.mem_map.mp h with ⟨d, _, hd⟩
    cases hd
  · have hacc' : acc = (List.range' 1 DAYS_TO_FETCH).filterMap (pickRec fenv) := by
      have h' := List.mem_singleton.mp h
      injection h'
    rw [hacc'] at hr
    rcases List.mem_filterMap.mp hr with ⟨d, _, hpick⟩
    simp only [pickRec] at hpick
    split at hpick
    · split at hpick
      · rename_i rec hok hdate
        injection hpick with hre
        subst hre
        assumption
      · cases hpick
    · cases hpick

theorem filter_fetch_map (ds : List Nat) :
    (ds.map JobEvent.fetchAttempt).filter isFetchEvent = ds.map JobEvent.fetchAttempt := by
  induction ds with
  | nil => rfl
  | cons d rest ih => simp [isFetchEvent, ih]

theorem filter_upload_map (ds : List Nat) :
    (ds.map JobEvent.fetchAttempt).filter isUploadEvent = [] := by
  induction ds with
  | nil => rfl
  | cons d rest ih => simp [isUploadEvent, ih]

theorem addKeys_nil_record (r : ForecastRecord) :
    addKeys [] (recordDict r) = forecastFields := rfl

theorem addKeys_fields_record (r : ForecastRecord) :
    addKeys forecastFields (recordDict r) = forecastFields := rfl

theorem inferColumns_records (r : ForecastRecord) (rs : List ForecastRecord) :
    inferColumns ((r :: rs).map recordDict) = forecastFields := by
  simp only [inferColumns, List.map_cons, List.foldl_cons, addKeys_nil_record]
  induction rs with
  | nil => rfl
  | cons r' rs' ih =>
    rw [List.map_cons, List.foldl_cons, addKeys_fields_record]
    exact ih

theorem cells_of_record (r : ForecastRecord) :
    forecastFields.map (fun c => ((recordDict r).lookup c).getD emptyCell) =
      recordCells r := rfl

theorem upload_401_refresh_ok (env : UploadEnv) (tok0 : Option String)
    (records : List ForecastRecord) (t : String)
    (h401 : env.status1 = 401) (htok : env.tokenResp.accessToken = some t)
    (hrok : raisesForStatus env.tokenResp.status = false) :
    upload_to_zoho env tok0 records =
      { trace := [UpAction.post (authHeader tok0) (csvOf records), UpAction.refreshTok,
          UpAction.post (authHeader (some t)) []],
        outcome := if raisesForStatus env.status2 then
            Except.error (UploadErr.httpStatus env.status2)
          else Except.ok (),
        token := some t } := by
  unfold upload_to_zoho refresh_zoho_token readStream
  rw [h401, htok, hrok]
  simp [List.drop_length]

/-- C1 (amended): when the first POST returns exactly 401 and the token
refresh succeeds with a new credential, the uploader calls refresh exactly
once, rebuilds the authorization header from the new credential, and
retries the POST exactly once; if the retry's status is a client or server
error (400..599, a second 401 included) the failure propagates as a fatal
error with no further retry and no further refresh. -/
theorem C1_upload_retry_amended (env : UploadEnv) (tok0 : Option String)
    (records : List ForecastRecord) (t : String)
    (h401 : env.status1 = 401) (htok : env.tokenResp.accessToken = some t)
    (hrok : raisesForStatus env.tokenResp.status = false)
    (hretry : raisesForStatus env.status2 = true) :
    (upload_to_zoho env tok0 records).trace =
      [UpAction.post (authHeader tok0) (csvOf records), UpAction.refreshTok,
        UpAction.post (authHeader (some t)) []] ∧
    (upload_to_zoho env tok0 records).outcome =
      Except.error (UploadErr.httpStatus env.status2) ∧
    ((upload_to_zoho env tok0 records).trace.filter isRefreshCall).length = 1 ∧
    ((upload_to_zoho env tok0 records).trace.filter isPost).length = 2 := by
  rw [upload_401_refresh_ok env tok0 records t h401 htok hrok]
  rw [hretry]
  exact ⟨rfl, by simp, rfl, rfl⟩

/-- C1 witness: first POST 401, refresh succeeds, retry answered with a
second 401. -/
theorem C1_upload_retry_witness :
    (upload_to_zoho envC1W (some ("t1")) []).trace =
      [UpAction.post (authHeader (some ("t1"))) (csvOf []), UpAction.refreshTok,
        UpAction.post (authHeader (some ("t2"))) []] ∧
    (upload_to_zoho envC1W (some ("t1")) []).outcome =
      Except.error (UploadErr.httpStatus envC1W.status2) ∧
    ((upload_to_zoho envC1W (some ("t1")) []).trace.filter isRefreshCall).length = 1 ∧
    ((upload_to_zoho envC1W (some ("t1")) []).trace.filter isPost).length = 2 :=
  C1_upload_retry_amended envC1W (some ("t1")) [] ("t2") rfl rfl rfl rfl

/-- C1 counterexample: the claim says a non-2xx retry-less failure notion;
here the retry answers 300 (non-2xx) after a 401 and a successful refresh,
yet `raise_for_status` raises only on 400..599, so no failure propagates
to the caller. -/
theorem C1_retry_counterexample :
    spec_is2xx envC1.status2 = false ∧
    (upload_to_zoho envC1 (some ("t1")) []).outcome = Except.ok () :=
  ⟨rfl, rfl⟩

/-- C2: the retry POST after a 401 reuses the same files dictionary whose
open stream was consumed by the first POST: the first POST carries the
serialized export and the retried POST's file part is empty, never the
original content (the export is never the empty table, it always has a
header row). -/
theorem C2_retry_reuses_consumed_stream (env : UploadEnv) (tok0 : Option String)
    (records : List ForecastRecord) (t : String)
    (h401 : env.status1 = 401) (htok : env.tokenResp.accessToken = some t)
    (hrok : raisesForStatus env.tokenResp.status = false) :
    (upload_to_zoho env tok0 records).trace =
      [UpAction.post (authHeader tok0) (csvOf records), UpAction.refreshTok,
        UpAction.post (authHeader (some t)) []] ∧
    csvOf records ≠ [] := by
  constructor
  · rw [upload_401_refresh_ok env tok0 records t h401 htok hrok]
  · simp [csvOf]

/-- C2 witness: a concrete 401-then-refresh-then-retry run over one
record. -/
theorem C2_retry_witness :
    (upload_to_zoho envC2W (some ("t1")) [recW]).trace =
      [UpAction.post (authHeader (some ("t1"))) (csvOf [recW]), UpAction.refreshTok,
        UpAction.post (authHeader (some ("t2"))) []] ∧
    csvOf [recW] ≠ [] :=
  C2_retry_reuses_consumed_stream envC2W (some ("t1")) [recW] ("t2") rfl rfl rfl

/-- C3: for any per-day fetch environment, daily_job attempts exactly the
30 days 1..30 in increasing order and calls the uploader exactly once,
with the accumulator holding exactly the successfully fetched records
whose Date is non-empty, in fetch order, empty accumulator included. -/
theorem C3_daily_job_runs (fenv : Nat → Option FetchResp) :
    daily_job fenv =
      (List.range' 1 DAYS_TO_FETCH).map JobEvent.fetchAttempt ++
        [JobEvent.uploadCall ((List.range' 1 DAYS_TO_FETCH).filterMap (pickRec fenv))] ∧
    ((daily_job fenv).filter isFetchEvent).length = 30 ∧
    ((daily_job fenv).filter isUploadEvent).length = 1 := by
  refine ⟨daily_job_spec fenv, ?_, ?_⟩
  · rw [daily_job_spec, List.filter_append, filter_fetch_map]
    simp [isFetchEvent, DAYS_TO_FETCH]
  · rw [daily_job_spec, List.filter_append, filter_upload_map]
    simp [isUploadEvent]

/-- C3 witness: the environment in which every day fails still yields 30
attempts and a single upload of the empty accumulator. -/
theorem C3_daily_job_witness :
    daily_job fenvNone =
      (List.range' 1 DAYS_TO_FETCH).map JobEvent.fetchAttempt ++
        [JobEvent.uploadCall ((List.range' 1 DAYS_TO_FETCH).filterMap (pickRec fenvNone))] ∧
    ((daily_job fenvNone).filter isFetchEvent).length = 30 ∧
    ((daily_job fenvNone).filter isUploadEvent).length = 1 :=
  C3_daily_job_runs fenvNone

/-- C4 (amended): the degree and percent glyphs are always removed (none
survives in the output) and those two strips are idempotent; the
millimetre strip removes the left-to-right non-overlapping occurrences of
the space-m-m pattern — in particular a trailing one — but it is not
idempotent in general, because a removal can create a new occurrence. -/
theorem C4_strip_amended :
    (∀ s, stripDegree (stripDegree s) = stripDegree s) ∧
    (∀ s, degreeGlyph ∉ (stripDegree s).data) ∧
    (∀ s, stripPercent (stripPercent s) = stripPercent s) ∧
    (∀ s, percentGlyph ∉ (stripPercent s).data) ∧
    (∀ s, stripMm (s ++ mmLit) = stripMm s) ∧
    ¬ (∀ s, stripMm (stripMm s) = stripMm s) := by
  refine ⟨?_, ?_, ?_, ?_, stripMm_append_mm, ?_⟩
  · intro s
    exact congrArg String.mk (stripCharAux_idem degreeGlyph s.data)
  · intro s
    exact stripCharAux_not_mem degreeGlyph s.data
  · intro s
    exact congrArg String.mk (stripCharAux_idem percentGlyph s.data)
  · intro s
    exact stripCharAux_not_mem percentGlyph s.data
  · intro h
    exact absurd (h mmExample) (by decide)

/-- C4 witness: concrete idempotence of the degree strip and removal of a
trailing millimetre suffix. -/
theorem C4_strip_witness :
    stripDegree (stripDegree degSample) = stripDegree degSample ∧
    stripMm (amtSample ++ mmLit) = stripMm amtSample :=
  ⟨C4_strip_amended.1 degSample, C4_strip_amended.2.2.2.2.1 amtSample⟩

/-- C4 counterexample: the millimetre strip is not idempotent; on the
six-character input space-m-space-m-m-m one pass leaves a string that a
second pass still shrinks. -/
theorem C4_strip_counterexample :
    ¬ stripMm (stripMm mmExample) = stripMm mmExample := by decide

/-- C5 (amended): for every non-empty records sequence the export has a
header row with exactly the five field names in their fixed order,
followed by one row per record in the given order; the claim fails only
for the empty sequence, where pandas infers no columns at all. -/
theorem C5_csv_amended (r : ForecastRecord) (rs : List ForecastRecord) :
    csvOf (r :: rs) = forecastFields :: (r :: rs).map recordCells := by
  simp only [csvOf, inferColumns_records]
  congr 1
  rw [List.map_map]
  exact List.map_congr_left fun a _ => cells_of_record a

/-- C5 witness: export of a single record. -/
theorem C5_csv_witness : csvOf [recW] = forecastFields :: [recW].map recordCells :=
  C5_csv_amended recW []

/-- C5 counterexample: for the empty records sequence the export is a lone
empty header row, not the field-name header the claim prescribes. -/
theorem C5_csv_counterexample :
    csvOf [] ≠ [forecastFields] ∧ csvOf [] = [[]] := by
  constructor
  · decide
  · rfl

/-- C6: when no card's heading contains the day key, HighTemp and both
precipitation fields are empty, while LowTemp is still computed from the
first card whose heading contains the night key whenever one exists. -/
theorem C6_no_day_card (m : Markup)
    (hnoday : ∀ c ∈ m.cards, headingContains dayKey c = false) :
    (extract m).HighTemp = "" ∧ (extract m).precipChance = "" ∧
    (extract m).precipAmount = "" ∧
    ∀ pre nc post, m.cards = pre ++ nc :: post →
      (∀ c ∈ pre, headingContains nightKey c = false) →
      headingContains nightKey nc = true →
      (extract m).LowTemp = get_temp (some nc) := by
  have hfind : m.cards.find? (headingContains dayKey) = none := by
    rw [List.find?_eq_none]
    intro c hc
    simp [hnoday c hc]
  refine ⟨?_, ?_, ?_, ?_⟩
  · simp [extract, hfind, get_temp]
  · simp [extract, hfind, get_precip_chance]
  · simp [extract, hfind, get_precip_amount]
  · intro pre nc post hsplit hpre hnc
    have hnight : m.cards.find? (headingContains nightKey) = some nc := by
      rw [hsplit]
      exact find?_first (headingContains nightKey) pre nc post hpre hnc
    simp [extract, hnight]

/-- C6 witness: markup with only a night card yields empty HighTemp and
precipitation fields and a LowTemp read from that night card. -/
theorem C6_no_day_witness :
    (extract markupW).HighTemp = "" ∧ (extract markupW).precipChance = "" ∧
    (extract markupW).precipAmount = "" ∧
    (extract markupW).LowTemp = get_temp (some nightCardW) := by
  have h := C6_no_day_card markupW (by decide)
  exact ⟨h.1, h.2.1, h.2.2.1, h.2.2.2 [] nightCardW [] rfl (by simp) (by decide)⟩

/-- C7: when the pagination label node is absent the extracted Date is
empty, and such a record is never an element of an accumulator the
orchestrator passes to the uploader, for any fetch environment. -/
theorem C7_missing_date (m : Markup) (h : m.dateTag = none) :
    (extract m).Date = "" ∧
    ∀ fenv acc, JobEvent.uploadCall acc ∈ daily_job fenv → extract m ∉ acc := by
  have hdate : (extract m).Date = "" := by simp [extract, h]
  refine ⟨hdate, ?_⟩
  intro fenv acc hacc hmem
  exact acc_mem_date_ne fenv acc hacc (extract m) hmem hdate

/-- C7 witness: markup without a date label, evaluated against the
all-failing fetch environment whose single upload carries the empty
accumulator. -/
theorem C7_missing_date_witness :
    (extract markupND).Date = "" ∧ extract markupND ∉ ([] : List ForecastRecord) := by
  have h := C7_missing_date markupND rfl
  exact ⟨h.1, h.2 fenvNone [] (by decide)⟩

/-- C8: each precipitation scan returns the processed value of the first
panel item, in document order, whose direct label text is exactly the
probability key (respectively the precipitation key), terminating at that
first exact match; with no matching item the field is the empty string. -/
theorem C8_precip_first_match (c : Card) :
    ((∀ p ∈ c.panels, labelIs chanceKey p = false) →
      get_precip_chance (some c) = "") ∧
    (∀ pre item post, c.panels = pre ++ item :: post →
      (∀ q ∈ pre, labelIs chanceKey q = false) → labelIs chanceKey item = true →
      get_precip_chance (some c) =
        match item.value with | some v => stripPercent v | none => "") ∧
    ((∀ p ∈ c.panels, labelIs amountKey p = false) →
      get_precip_amount (some c) = "") ∧
    (∀ pre item post, c.panels = pre ++ item :: post →
      (∀ q ∈ pre, labelIs amountKey q = false) → labelIs amountKey item = true →
      get_precip_amount (some c) =
        match item.value with | some v => stripMm v | none => "") := by
  refine ⟨?_, ?_, ?_, ?_⟩
  · intro h
    exact chance_scan_none c.panels h
  · intro pre item post hsplit hpre hit
    show precip_chance_scan c.panels = _
    rw [hsplit]
    exact chance_scan_first pre item post hpre hit
  · intro h
    exact amount_scan_none c.panels h
  · intro pre item post hsplit hpre hit
    show precip_amount_scan c.panels = _
    rw [hsplit]
    exact amount_scan_first pre item post hpre hit

/-- C8 witness: a day card with a decoy panel; the probability panel wins
the chance scan and the exact precipitation label (not the probability
label, which merely contains it) wins the amount scan. -/
theorem C8_precip_witness :
    get_precip_chance (some cardW) = stripPercent ("40%") ∧
    get_precip_amount (some cardW) = stripMm ("3 mm") := by
  have h := C8_precip_first_match cardW
  constructor
  · exact h.2.1 [panelW1] panelW2 [panelW3] rfl (by decide) (by decide)
  · exact h.2.2.2 [panelW1, panelW2] panelW3 [] rfl (by decide) (by decide)

/-- C9 (amended): when the first POST returns a client or server error
status (400..599) other than 401, no token refresh happens, no retry POST
is issued, and the failure propagates immediately; a non-2xx status
outside 400..599 likewise triggers no refresh and no retry, but
`raise_for_status` then raises nothing at all. -/
theorem C9_non401_amended (env : UploadEnv) (tok0 : Option String)
    (records : List ForecastRecord) (hne : env.status1 ≠ 401)
    (herr : raisesForStatus env.status1 = true) :
    upload_to_zoho env tok0 records =
      { trace := [UpAction.post (authHeader tok0) (csvOf records)],
        outcome := Except.error (UploadErr.httpStatus env.status1),
        token := tok0 } ∧
    ((upload_to_zoho env tok0 records).trace.filter isRefreshCall).length = 0 ∧
    ((upload_to_zoho env tok0 records).trace.filter isPost).length = 1 := by
  have h : upload_to_zoho env tok0 records =
      { trace := [UpAction.post (authHeader tok0) (csvOf records)],
        outcome := Except.error (UploadErr.httpStatus env.status1),
        token := tok0 } := by
    unfold upload_to_zoho readStream
    rw [if_neg hne, herr]
    simp
  refine ⟨h, ?_, ?_⟩ <;> rw [h] <;> rfl

/-- C9 witness: a 500 on the first POST gives one POST, no refresh and a
propagated error. -/
theorem C9_non401_witness :
    upload_to_zoho envC9W (some ("t1")) [] =
      { trace := [UpAction.post (authHeader (some ("t1"))) (csvOf [])],
        outcome := Except.error (UploadErr.httpStatus envC9W.status1),
        token := some ("t1") } ∧
    ((upload_to_zoho envC9W (some ("t1")) []).trace.filter isRefreshCall).length = 0 ∧
    ((upload_to_zoho envC9W (some ("t1")) []).trace.filter isPost).length = 1 :=
  C9_non401_amended envC9W (some ("t1")) [] (by decide) rfl

/-- C9 counterexample: a 300 on the first POST is non-2xx and not 401;
indeed no refresh and no retry happen, but nothing propagates as a fatal
error either — the call completes successfully. -/
theorem C9_non401_counterexample :
    spec_is2xx envC9.status1 = false ∧ envC9.status1 ≠ 401 ∧
    ((upload_to_zoho envC9 (some ("t1")) []).trace.filter isRefreshCall).length = 0 ∧
    (upload_to_zoho envC9 (some ("t1")) []).outcome = Except.ok () := by
  refine ⟨rfl, by decide, rfl, rfl⟩

/-- C10 (amended): refresh is atomic in the stored credential — on any
error outcome (a 400..599 status, or a body without an access_token
field) the stored credential keeps exactly its previous value, and the
credential is replaced exactly when refresh succeeds, by the token carried
in the response body. -/
theorem C10_refresh_amended (resp : TokenResp) (tok : Option String) :
    (∀ e, (refresh_zoho_token resp tok).1 = Except.error e →
      (refresh_zoho_token resp tok).2 = tok) ∧
    ((refresh_zoho_token resp tok).1 = Except.ok () →
      ∃ t, resp.accessToken = some t ∧ (refresh_zoho_token resp tok).2 = some t) ∧
    (raisesForStatus resp.status = true → (refresh_zoho_token resp tok).2 = tok) ∧
    (resp.accessToken = none → (refresh_zoho_token resp tok).2 = tok) := by
  unfold refresh_zoho_token
  cases hs : raisesForStatus resp.status with
  | true => simp [hs]
  | false =>
    cases ha : resp.accessToken with
    | none => simp [hs, ha]
    | some t => simp [hs, ha]

/-- C10 witness: a 401 from the token endpoint leaves the stored
credential untouched. -/
theorem C10_refresh_witness :
    (refresh_zoho_token respC10W (some ("old"))).2 = some ("old") :=
  (C10_refresh_amended respC10W (some ("old"))).2.2.1 rfl

/-- C10 counterexample: a 300 token-endpoint response is non-2xx, yet
`raise_for_status` does not raise on it, so refresh succeeds and the
stored credential is replaced — against the claim's wording. -/
theorem C10_refresh_counterexample :
    spec_is2xx respC10.status = false ∧
    refresh_zoho_token respC10 (some ("old")) = (Except.ok (), some ("newTok")) :=
  ⟨rfl, rfl⟩
